import Mathlib

/-!
Verification development for the shipper rollout strategy coordinator and its
collaborators. Definitions are shallow embeddings: the chart-repo catalog
(`CreateRepoIfNotExist`) and the e2e client-config builder
(`buildApplicationClient`) are translated directly from the Go sources; the
rollout strategy coordinator, the three target aggregators, the desired
replica-count computation and the cluster client store are not present under
the sources provided, so they are modelled from the specification, as marked
on each definition.
-/

namespace Shipper

/-- Value pair of a strategy step: percentages for the incumbent and the
contender release, each in [0,100]. -/
structure RolloutStrategyStepValue where
  incumbent : Nat
  contender : Nat
deriving DecidableEq

/-- One step of a rollout strategy: a name plus capacity and traffic
percentage pairs. -/
structure RolloutStrategyStep where
  name : String
  capacity : RolloutStrategyStepValue
  traffic : RolloutStrategyStepValue
deriving DecidableEq

/-- A rollout strategy: an ordered list of steps, frozen on the Release. -/
structure RolloutStrategy where
  steps : List RolloutStrategyStep
deriving DecidableEq

/-- Positional role of a release: the newest release is the contender, the
previous fully-rolled-out one the incumbent. -/
inductive Role
  | incumbent
  | contender
deriving DecidableEq

/-- Select the percentage of a step value for a given role. -/
def RolloutStrategyStepValue.forRole (v : RolloutStrategyStepValue) : Role → Nat
  | .incumbent => v.incumbent
  | .contender => v.contender

/-- Modelled from the spec: `pkg/util/replicas.CalculateDesiredReplicaCount`
is not under the provided sources (only its callers in the e2e test are).
The spec defines `desired = ceil(weight/100 * totalReplicas)` for weight > 0
and exactly 0 for weight = 0; over naturals the ceiling of
`weight * total / 100` is `(weight * total + 99) / 100`. -/
def CalculateDesiredReplicaCount (weight totalReplicas : Nat) : Nat :=
  (weight * totalReplicas + 99) / 100

/-- Per-cluster installation report: the installed verdict reported by the
per-cluster executor through the InstallationTarget status. -/
structure InstallationReport where
  cluster : String
  installed : Bool
deriving DecidableEq

/-- Per-cluster capacity report: desired and achieved replica counts plus the
Operational and Ready conditions from the CapacityTarget status. -/
structure CapacityReport where
  cluster : String
  desiredReplicas : Nat
  achievedReplicas : Nat
  operational : Bool
  ready : Bool
deriving DecidableEq

/-- Per-cluster traffic report: desired and achieved traffic weights plus the
Operational and Ready conditions from the TrafficTarget status. -/
structure TrafficReport where
  cluster : String
  desiredWeight : Nat
  achievedWeight : Nat
  operational : Bool
  ready : Bool
deriving DecidableEq

/-- Modelled from the spec: the InstallationAggregate pure function is not
under the provided sources. Satisfied iff every cluster in the desired set
reports installed = true. -/
def InstallationAggregate (rs : List InstallationReport) : Bool :=
  rs.all (fun r => r.installed)

/-- Modelled from the spec: the CapacityAggregate pure function is not under
the provided sources. Satisfied iff, for every cluster, achieved replica
count is at least the desired count and the cluster reports Operational and
Ready. -/
def CapacityAggregate (rs : List CapacityReport) : Bool :=
  rs.all (fun r => r.desiredReplicas ≤ r.achievedReplicas && r.operational && r.ready)

/-- Modelled from the spec: the TrafficAggregate pure function is not under
the provided sources. Satisfied iff, for every cluster, achieved traffic
weight equals the desired weight exactly and the cluster reports Operational
and Ready. -/
def TrafficAggregate (rs : List TrafficReport) : Bool :=
  rs.all (fun r => r.achievedWeight == r.desiredWeight && r.operational && r.ready)

/-- A hypothetical traffic aggregate that would accept any achieved weight at
least the desired weight; used only to contrast with the exact-match
`TrafficAggregate` the spec prescribes. -/
def TrafficAggregateGE (rs : List TrafficReport) : Bool :=
  rs.all (fun r => r.desiredWeight ≤ r.achievedWeight && r.operational && r.ready)

/-- Strategy state of a Release status: the four waiting flags. The status
surface is tri-state but the coordinator only ever writes True or False, so
the model uses Bool. -/
structure StrategyState where
  waitingForInstallation : Bool
  waitingForCapacity : Bool
  waitingForTraffic : Bool
  waitingForCommand : Bool
deriving DecidableEq

/-- Observed status of a Release: the last fully-achieved step (if any) and
the four waiting flags. -/
structure ReleaseStatus where
  achievedStep : Option Nat
  state : StrategyState
deriving DecidableEq

/-- Desired weights written by the coordinator into the CapacityTarget and
TrafficTarget specs (the same percentage for every cluster of the release). -/
structure TargetSpecs where
  capacityWeight : Nat
  trafficWeight : Nat
deriving DecidableEq

/-- Errors of the coordinator pass; `invalidTargetStep` is terminal. -/
inductive CoordError
  | invalidTargetStep
deriving DecidableEq

/-- Result of one coordinator pass: the (possibly re-written) target specs,
whether a capacity or traffic spec write was issued, and the new Release
status. -/
structure PassResult where
  specs : TargetSpecs
  wroteCapacity : Bool
  wroteTraffic : Bool
  status : ReleaseStatus
deriving DecidableEq

/-- Placeholder step used only for the list-indexing default; the in-range
guard guarantees it is never selected. -/
def dummyStep : RolloutStrategyStep :=
  ⟨"", ⟨0, 0⟩, ⟨0, 0⟩⟩

/-- Modelled from the spec: the Rollout Strategy Coordinator per-pass
algorithm (spec section 4.3, steps 1-7) is not under the provided sources.
Given the frozen strategy, the release role, the operator-set target step S,
the currently persisted target specs and achieved step, and the per-cluster
reports, the pass: fails with `invalidTargetStep` when S is outside
[0, len(steps)-1] (no silent clamping); otherwise writes the desired weights
of step S for the role (issuing a write only when changed), then evaluates
Installation, Capacity, Traffic in that order, stopping at the first
unsatisfied aggregate with the corresponding waiting flag set and
AchievedStep unchanged; when all three are satisfied it records
AchievedStep = S and parks on WaitingForCommand. TargetStep is an input
only: the pass never emits a new TargetStep, matching the spec's rule that
step advancement is always an explicit operator command. -/
def coordinatorPass (strategy : RolloutStrategy) (role : Role) (targetStep : Int)
    (specs : TargetSpecs) (prevAchieved : Option Nat)
    (inst : List InstallationReport) (cap : List CapacityReport)
    (traf : List TrafficReport) : Except CoordError PassResult :=
  if 0 ≤ targetStep ∧ targetStep < (strategy.steps.length : Int) then
    let step := strategy.steps.getD targetStep.toNat dummyStep
    let desired : TargetSpecs := ⟨step.capacity.forRole role, step.traffic.forRole role⟩
    let wroteCap := specs.capacityWeight != desired.capacityWeight
    let wroteTraf := specs.trafficWeight != desired.trafficWeight
    let status : ReleaseStatus :=
      if InstallationAggregate inst then
        if CapacityAggregate cap then
          if TrafficAggregate traf then
            ⟨some targetStep.toNat, ⟨false, false, false, true⟩⟩
          else ⟨prevAchieved, ⟨false, false, true, false⟩⟩
        else ⟨prevAchieved, ⟨false, true, false, false⟩⟩
      else ⟨prevAchieved, ⟨true, false, false, false⟩⟩
    .ok ⟨desired, wroteCap, wroteTraf, status⟩
  else
    .error .invalidTargetStep

/-- Number of waiting flags asserted true in a strategy state. -/
def waitingFlagCount (s : StrategyState) : Nat :=
  (if s.waitingForInstallation then 1 else 0) +
    (if s.waitingForCapacity then 1 else 0) +
    (if s.waitingForTraffic then 1 else 0) +
    (if s.waitingForCommand then 1 else 0)

/-- Errors of the cluster client store lookup. -/
inductive ClusterClientError
  | clusterNotReady
  | clusterUnknown
deriving DecidableEq

/-- Per-cluster entry of the client store: whether the cluster cache has
completed its initial sync, and the client (abstracted to an identifier). -/
structure ClusterEntry where
  name : String
  synced : Bool
  clientId : Nat
deriving DecidableEq

/-- The cluster client store: the set of registered clusters keyed by name. -/
structure ClusterClientStore where
  clusters : List ClusterEntry
deriving DecidableEq

/-- Look up a registered cluster by name. -/
def lookupCluster (s : ClusterClientStore) (clusterName : String) : Option ClusterEntry :=
  s.clusters.find? (fun e => e.name == clusterName)

/-- Modelled from the spec: the Cluster Client Store `GetClient` accessor is
not under the provided sources (only its callers in the traffic controller
test are). Fails with `clusterUnknown` when no cluster of that name is
registered, with `clusterNotReady` when the cluster is registered but its
cache has not completed its initial sync, and otherwise returns the ready
client. The agent identity is used only for attribution and does not affect
the result. -/
def GetClient (s : ClusterClientStore) (clusterName _agentIdentity : String) :
    Except ClusterClientError Nat :=
  match lookupCluster s clusterName with
  | none => .error .clusterUnknown
  | some e => if e.synced then .ok e.clientId else .error .clusterNotReady

/-- A per-cluster secret: data fields (byte strings) and metadata key/value
pairs attached to the secret object. -/
structure Secret where
  data : List (String × String)
  annots : List (String × String)
deriving DecidableEq

/-- Look up a field in a string-keyed map, as Go's comma-ok map index. -/
def lookupField (m : List (String × String)) (k : String) : Option String :=
  (m.find? (fun p => p.1 == k)).map (fun p => p.2)

/-- Client configuration assembled for one application cluster, embedding
the fields of `rest.Config` that `buildApplicationClient` touches. `none`
for `caData` means the system default trust store is used. -/
structure RestConfig where
  host : String
  caData : Option String
  certData : Option String
  keyData : Option String
  insecure : Bool
deriving DecidableEq

/-- Semantics of Go's `strconv.ParseBool`: accepts exactly 1, t, T, TRUE,
true, True for true and 0, f, F, FALSE, false, False for false; anything
else is an error (`none`). -/
def parseBool (s : String) : Option Bool :=
  if s = "1" ∨ s = "t" ∨ s = "T" ∨ s = "TRUE" ∨ s = "true" ∨ s = "True" then
    some true
  else if s = "0" ∨ s = "f" ∨ s = "F" ∨ s = "FALSE" ∨ s = "false" ∨ s = "False" then
    some false
  else
    none

/-- Metadata key of the per-cluster skip-TLS-verify toggle
(`shipper.SecretClusterSkipTlsVerifyAnnotation` in the source). -/
def skipTlsVerifyKey : String :=
  "shipper.booking.com/cluster-secret.insecure-tls-skip-verify"

/-- Embedding of `buildApplicationClient` (test/e2e/e2e_test.go): builds a
`rest.Config` from the cluster's API master host and its secret. The CA is
set only when the secret has a `tls.ca` field; the certificate and key are
taken from `tls.crt` and `tls.key` (absent fields leave them unset, as Go's
nil); when the skip-TLS-verify metadata key is present and parses as a
boolean the Insecure flag takes that value, and an unparseable value is
ignored. -/
def buildApplicationClient (apiMaster : String) (secret : Secret) : RestConfig :=
  let base : RestConfig :=
    { host := apiMaster, caData := none, certData := none, keyData := none,
      insecure := false }
  let withCA :=
    match lookupField secret.data "tls.ca" with
    | some ca => { base with caData := some ca }
    | none => base
  let withCerts :=
    { withCA with
        certData := lookupField secret.data "tls.crt",
        keyData := lookupField secret.data "tls.key" }
  match lookupField secret.annots skipTlsVerifyKey with
  | some encoded =>
    match parseBool encoded with
    | some b => { withCerts with insecure := b }
    | none => withCerts
  | none => withCerts

/-- A chart repository handle: its URL plus its cache (abstracted to an
identifier), as produced by `NewRepo`. -/
structure Repo where
  url : String
  cache : Nat
deriving DecidableEq

/-- The chart-repo catalog: repositories keyed by derived name. -/
structure Catalog where
  repos : List (String × Repo)
deriving DecidableEq

/-- Look up a repository by derived name in the catalog map. -/
def lookupRepo (c : Catalog) (name : String) : Option Repo :=
  (c.repos.find? (fun p => p.1 == name)).map (fun p => p.2)

/-- Outcome of `CreateRepoIfNotExist`: the returned repo or error, the
catalog afterwards, and whether the cache factory was invoked. -/
structure CreateRepoResult where
  result : Except String Repo
  catalog : Catalog
  factoryInvoked : Bool

/-- Embedding of `Catalog.CreateRepoIfNotExist` (chart repo package): the URL
is first validated (`url.ParseRequestURI`, abstracted to the predicate
`parseOK`); an invalid URL is an error with the catalog untouched. Otherwise
the repository name is derived with `url2name`; when a repo of that name
already exists it is returned as is. Otherwise the cache factory is invoked
for the name; a factory error is wrapped and returned with the catalog
untouched; on success a new repo is built from the URL and the cache and
stored under the name. -/
def CreateRepoIfNotExist (parseOK : String → Bool) (url2name : String → String)
    (factory : String → Except String Nat) (c : Catalog) (repoURL : String) :
    CreateRepoResult :=
  if parseOK repoURL = false then
    ⟨.error "invalid URL", c, false⟩
  else
    let name := url2name repoURL
    match lookupRepo c name with
    | some repo => ⟨.ok repo, c, false⟩
    | none =>
      match factory name with
      | .error e => ⟨.error ("failed to create cache: " ++ e), c, true⟩
      | .ok cache =>
        let repo : Repo := ⟨repoURL, cache⟩
        ⟨.ok repo, ⟨(name, repo) :: c.repos⟩, true⟩

/-- Helper: over the naturals, `(m + 99) / 100` is the rational ceiling of
`m / 100`. -/
theorem natCeilDiv_hundred_eq_ceil (m : Nat) :
    (((m + 99) / 100 : Nat) : ℤ) = ⌈(m : ℚ) / 100⌉ := by
  obtain ⟨q, hq⟩ : ∃ q, (m + 99) / 100 = q := ⟨_, rfl⟩
  have h1 : m ≤ 100 * q := by omega
  have h2 : 100 * q < m + 100 := by omega
  rw [hq, eq_comm, Int.ceil_eq_iff]
  have h1q : (m : ℚ) ≤ 100 * q := by exact_mod_cast h1
  have h2q : (100 : ℚ) * q < (m : ℚ) + 100 := by exact_mod_cast h2
  constructor
  · rw [lt_div_iff₀ (show (0 : ℚ) < 100 by norm_num)]
    push_cast
    linarith
  · rw [div_le_iff₀ (show (0 : ℚ) < 100 by norm_num)]
    push_cast
    linarith

/-- C2: the desired replica count is the rational ceiling of
`weight/100 * totalReplicas`; it is exactly 0 at weight 0; weight 50 with 4
total replicas gives 2 and with 3 total replicas gives 2; and a positive
weight with a positive replica total never yields 0 replicas. -/
theorem CalculateDesiredReplicaCount_spec (w n : Nat) (hw : 0 < w) (hn : 0 < n) :
    ((CalculateDesiredReplicaCount w n : ℤ) = ⌈(w : ℚ) / 100 * n⌉)
    ∧ CalculateDesiredReplicaCount 0 n = 0
    ∧ CalculateDesiredReplicaCount 50 4 = 2
    ∧ CalculateDesiredReplicaCount 50 3 = 2
    ∧ 0 < CalculateDesiredReplicaCount w n := by
  refine ⟨?_, ?_, by decide, by decide, ?_⟩
  · have hx : (w : ℚ) / 100 * n = ((w * n : Nat) : ℚ) / 100 := by
      push_cast
      ring
    rw [hx]
    exact natCeilDiv_hundred_eq_ceil (w * n)
  · simp [CalculateDesiredReplicaCount]
  · have hm : 0 < w * n := Nat.mul_pos hw hn
    have h100 : 100 ≤ w * n + 99 := by omega
    exact Nat.div_pos h100 (by norm_num)

/-- C2 witness: the theorem applied at weight 1 with 1 total replica. -/
theorem CalculateDesiredReplicaCount_spec_witness :
    0 < CalculateDesiredReplicaCount 1 1 :=
  (CalculateDesiredReplicaCount_spec 1 1 (by decide) (by decide)).2.2.2.2

/-- C5: `GetClient` fails with `clusterUnknown` when no cluster of the asked
name is registered, fails with `clusterNotReady` when it is registered but
its cache has not completed its initial sync, and otherwise returns the
ready client, for every agent identity. -/
theorem GetClient_spec (s : ClusterClientStore) (n a : String) :
    (lookupCluster s n = none → GetClient s n a = .error .clusterUnknown)
    ∧ (∀ e, lookupCluster s n = some e → e.synced = false →
        GetClient s n a = .error .clusterNotReady)
    ∧ (∀ e, lookupCluster s n = some e → e.synced = true →
        GetClient s n a = .ok e.clientId) := by
  refine ⟨?_, ?_, ?_⟩
  · intro h
    simp [GetClient, h]
  · intro e he hs
    simp [GetClient, he, hs]
  · intro e he hs
    simp [GetClient, he, hs]

/-- C5 witness: the three contract cases at a concrete store holding one
synced and one unsynced cluster. -/
theorem GetClient_spec_witness :
    GetClient ⟨[⟨"cluster-a", true, 7⟩, ⟨"cluster-b", false, 8⟩]⟩ "cluster-a" "traffic-controller" = .ok 7
    ∧ GetClient ⟨[⟨"cluster-a", true, 7⟩, ⟨"cluster-b", false, 8⟩]⟩ "cluster-b" "traffic-controller" =
        .error .clusterNotReady
    ∧ GetClient ⟨[⟨"cluster-a", true, 7⟩, ⟨"cluster-b", false, 8⟩]⟩ "cluster-c" "traffic-controller" =
        .error .clusterUnknown := by
  refine ⟨?_, ?_, ?_⟩
  · exact (GetClient_spec ⟨[⟨"cluster-a", true, 7⟩, ⟨"cluster-b", false, 8⟩]⟩
      "cluster-a" "traffic-controller").2.2 ⟨"cluster-a", true, 7⟩ rfl rfl
  · exact (GetClient_spec ⟨[⟨"cluster-a", true, 7⟩, ⟨"cluster-b", false, 8⟩]⟩
      "cluster-b" "traffic-controller").2.1 ⟨"cluster-b", false, 8⟩ rfl rfl
  · exact (GetClient_spec ⟨[⟨"cluster-a", true, 7⟩, ⟨"cluster-b", false, 8⟩]⟩
      "cluster-c" "traffic-controller").1 rfl

/-- C6: the traffic aggregate is satisfied exactly when every cluster's
achieved weight equals its desired weight and its Operational and Ready
conditions hold; an over-achieving cluster (achieved 20 against desired 10)
is not satisfied, although a greater-or-equal comparison would accept it. -/
theorem TrafficAggregate_exact_iff (rs : List TrafficReport) :
    (TrafficAggregate rs = true ↔
      ∀ r ∈ rs, r.achievedWeight = r.desiredWeight ∧ r.operational = true ∧ r.ready = true)
    ∧ TrafficAggregate [⟨"cluster-0", 10, 20, true, true⟩] = false
    ∧ TrafficAggregateGE [⟨"cluster-0", 10, 20, true, true⟩] = true := by
  refine ⟨?_, rfl, rfl⟩
  simp [TrafficAggregate, List.all_eq_true, Bool.and_eq_true, and_assoc]

/-- Helper: closed form of `buildApplicationClient`, one field at a time. -/
theorem buildApplicationClient_eq (host : String) (secret : Secret) :
    buildApplicationClient host secret =
      ⟨host, lookupField secret.data "tls.ca", lookupField secret.data "tls.crt",
       lookupField secret.data "tls.key",
       ((lookupField secret.annots skipTlsVerifyKey).bind parseBool).getD false⟩ := by
  unfold buildApplicationClient
  rcases hca : lookupField secret.data "tls.ca" with _ | ca <;>
    rcases hann : lookupField secret.annots skipTlsVerifyKey with _ | encoded <;>
    simp [hca, hann]
  · rcases hpb : parseBool encoded with _ | b <;> simp [hpb]
  · rcases hpb : parseBool encoded with _ | b <;> simp [hpb]

/-- C9: the client config takes the certificate and key from the secret's
`tls.crt` and `tls.key` fields, the CA from `tls.ca` only when that field is
present (otherwise left unset so the system default trust store applies),
and it disables TLS verification exactly per the skip-tls-verify value when
that value parses as a boolean, ignoring an unparseable value. -/
theorem buildApplicationClient_spec (host : String) (secret : Secret) :
    ((buildApplicationClient host secret).certData = lookupField secret.data "tls.crt")
    ∧ ((buildApplicationClient host secret).keyData = lookupField secret.data "tls.key")
    ∧ ((buildApplicationClient host secret).caData = lookupField secret.data "tls.ca")
    ∧ (∀ encoded b, lookupField secret.annots skipTlsVerifyKey = some encoded →
        parseBool encoded = some b → (buildApplicationClient host secret).insecure = b)
    ∧ (∀ encoded, lookupField secret.annots skipTlsVerifyKey = some encoded →
        parseBool encoded = none → (buildApplicationClient host secret).insecure = false)
    ∧ (lookupField secret.annots skipTlsVerifyKey = none →
        (buildApplicationClient host secret).insecure = false) := by
  rw [buildApplicationClient_eq]
  refine ⟨rfl, rfl, rfl, ?_, ?_, ?_⟩
  · intro encoded b hann hpb
    simp [hann, hpb]
  · intro encoded hann hpb
    simp [hann, hpb]
  · intro hann
    simp [hann]

/-- C9 witness: a concrete secret with certificate, key and CA fields and a
skip-tls-verify value of true yields a config with those fields and TLS
verification disabled. -/
theorem buildApplicationClient_spec_witness :
    (buildApplicationClient "https://api.example.com"
        ⟨[("tls.crt", "CERT"), ("tls.key", "KEY"), ("tls.ca", "CA")],
         [(skipTlsVerifyKey, "true")]⟩).insecure = true :=
  (buildApplicationClient_spec "https://api.example.com"
      ⟨[("tls.crt", "CERT"), ("tls.key", "KEY"), ("tls.ca", "CA")],
       [(skipTlsVerifyKey, "true")]⟩).2.2.2.1 "true" true rfl rfl

/-- C10: a second `CreateRepoIfNotExist` call with the same URL returns the
identical repo the first successful call created, without invoking the cache
factory again and without changing the catalog; a URL rejected by the parser
or a factory error returns an error and leaves the repo map unchanged. -/
theorem CreateRepoIfNotExist_spec (parseOK : String → Bool) (url2name : String → String)
    (factory : String → Except String Nat) (c : Catalog) (u : String) :
    (∀ repo c₁ i₁,
        CreateRepoIfNotExist parseOK url2name factory c u = ⟨.ok repo, c₁, i₁⟩ →
        CreateRepoIfNotExist parseOK url2name factory c₁ u = ⟨.ok repo, c₁, false⟩)
    ∧ (parseOK u = false →
        CreateRepoIfNotExist parseOK url2name factory c u = ⟨.error "invalid URL", c, false⟩)
    ∧ (∀ e, parseOK u = true → lookupRepo c (url2name u) = none →
        factory (url2name u) = .error e →
        CreateRepoIfNotExist parseOK url2name factory c u =
          ⟨.error ("failed to create cache: " ++ e), c, true⟩) := by
  refine ⟨?_, ?_, ?_⟩
  · intro repo c₁ i₁ h
    rcases hp : parseOK u with _ | _
    · simp [CreateRepoIfNotExist, hp] at h
    · rcases hl : lookupRepo c (url2name u) with _ | r
      · rcases hf : factory (url2name u) with e | cache
        · simp [CreateRepoIfNotExist, hp, hl, hf] at h
        · simp [CreateRepoIfNotExist, hp, hl, hf] at h
          obtain ⟨hrepo, hc₁, _⟩ := h
          subst hc₁
          simp [CreateRepoIfNotExist, hp, lookupRepo, List.find?, ← hrepo]
      · simp [CreateRepoIfNotExist, hp, hl] at h
        obtain ⟨hrepo, hc₁, _⟩ := h
        subst hc₁
        simp [CreateRepoIfNotExist, hp, hl, hrepo]
  · intro hp
    simp [CreateRepoIfNotExist, hp]
  · intro e hp hl hf
    simp [CreateRepoIfNotExist, hp, hl, hf]

/-- C10 witness: with a parser accepting the URL and a factory producing
cache 5, the first call stores the repo and the second call returns the same
repo from the same catalog without invoking the factory. -/
theorem CreateRepoIfNotExist_spec_witness :
    CreateRepoIfNotExist (fun _ => true) (fun u => u) (fun _ => .ok 5)
        ⟨[("https://charts.example.com", ⟨"https://charts.example.com", 5⟩)]⟩
        "https://charts.example.com" =
      ⟨.ok ⟨"https://charts.example.com", 5⟩,
       ⟨[("https://charts.example.com", ⟨"https://charts.example.com", 5⟩)]⟩, false⟩ :=
  (CreateRepoIfNotExist_spec (fun _ => true) (fun u => u) (fun _ => .ok 5)
      ⟨[]⟩ "https://charts.example.com").1
    ⟨"https://charts.example.com", 5⟩
    ⟨[("https://charts.example.com", ⟨"https://charts.example.com", 5⟩)]⟩ true rfl

/-- Helper: the capacity aggregate is satisfied exactly when every cluster's
achieved replica count is at least its desired count and its Operational and
Ready conditions hold. -/
theorem CapacityAggregate_iff (rs : List CapacityReport) :
    CapacityAggregate rs = true ↔
      ∀ r ∈ rs, r.desiredReplicas ≤ r.achievedReplicas
        ∧ r.operational = true ∧ r.ready = true := by
  simp [CapacityAggregate, List.all_eq_true, Bool.and_eq_true, and_assoc]

/-- C1: one coordinator pass at an in-range step S evaluates Installation,
Capacity and Traffic in that order; at the first unsatisfied aggregate the
corresponding waiting flag is set (all others false) and AchievedStep is
left unchanged; only when all three are satisfied is AchievedStep set to S
with WaitingForCommand true and all other flags false. TargetStep itself is
never advanced: the pass does not produce a target step at all. -/
theorem coordinatorPass_aggregate_order (strategy : RolloutStrategy) (role : Role)
    (S : Int) (specs : TargetSpecs) (prevA : Option Nat)
    (inst : List InstallationReport) (cap : List CapacityReport)
    (traf : List TrafficReport)
    (h0 : 0 ≤ S) (h1 : S < (strategy.steps.length : Int)) :
    ∃ r, coordinatorPass strategy role S specs prevA inst cap traf = .ok r
      ∧ (InstallationAggregate inst = false →
          r.status = ⟨prevA, ⟨true, false, false, false⟩⟩)
      ∧ (InstallationAggregate inst = true → CapacityAggregate cap = false →
          r.status = ⟨prevA, ⟨false, true, false, false⟩⟩)
      ∧ (InstallationAggregate inst = true → CapacityAggregate cap = true →
          TrafficAggregate traf = false →
          r.status = ⟨prevA, ⟨false, false, true, false⟩⟩)
      ∧ (InstallationAggregate inst = true → CapacityAggregate cap = true →
          TrafficAggregate traf = true →
          r.status = ⟨some S.toNat, ⟨false, false, false, true⟩⟩) := by
  have hcond : 0 ≤ S ∧ S < (strategy.steps.length : Int) := ⟨h0, h1⟩
  simp only [coordinatorPass, if_pos hcond]
  refine ⟨_, rfl, ?_, ?_, ?_, ?_⟩
  · intro hI
    simp [hI]
  · intro hI hC
    simp [hI, hC]
  · intro hI hC hT
    simp [hI, hC, hT]
  · intro hI hC hT
    simp [hI, hC, hT]

/-- C1 witness: a single-step strategy at step 0 with all aggregates
satisfied parks on WaitingForCommand with AchievedStep 0. -/
theorem coordinatorPass_aggregate_order_witness :
    ∃ r, coordinatorPass ⟨[⟨"full on", ⟨0, 100⟩, ⟨0, 100⟩⟩]⟩ .contender 0 ⟨100, 100⟩ none
        [⟨"cluster-a", true⟩] [⟨"cluster-a", 4, 4, true, true⟩]
        [⟨"cluster-a", 100, 100, true, true⟩] = .ok r
      ∧ (InstallationAggregate [⟨"cluster-a", true⟩] = true →
          CapacityAggregate [⟨"cluster-a", 4, 4, true, true⟩] = true →
          TrafficAggregate [⟨"cluster-a", 100, 100, true, true⟩] = true →
          r.status = ⟨some 0, ⟨false, false, false, true⟩⟩) := by
  obtain ⟨r, hok, _, _, _, hall⟩ :=
    coordinatorPass_aggregate_order ⟨[⟨"full on", ⟨0, 100⟩, ⟨0, 100⟩⟩]⟩ .contender 0
      ⟨100, 100⟩ none [⟨"cluster-a", true⟩] [⟨"cluster-a", 4, 4, true, true⟩]
      [⟨"cluster-a", 100, 100, true, true⟩] (by decide) (by decide)
  exact ⟨r, hok, fun hI hC hT => hall hI hC hT⟩

/-- C3: every status a coordinator pass can produce asserts at most one of
the four waiting flags: exactly one is true, or none is. -/
theorem coordinatorPass_waiting_flag_exclusive (strategy : RolloutStrategy) (role : Role)
    (S : Int) (specs : TargetSpecs) (prevA : Option Nat)
    (inst : List InstallationReport) (cap : List CapacityReport)
    (traf : List TrafficReport) (r : PassResult)
    (h : coordinatorPass strategy role S specs prevA inst cap traf = .ok r) :
    waitingFlagCount r.status.state = 1 ∨ waitingFlagCount r.status.state = 0 := by
  by_cases hcond : 0 ≤ S ∧ S < (strategy.steps.length : Int)
  · simp only [coordinatorPass, if_pos hcond] at h
    cases hI : InstallationAggregate inst <;> cases hC : CapacityAggregate cap <;>
      cases hT : TrafficAggregate traf <;> simp [hI, hC, hT] at h <;> subst h <;>
      simp [waitingFlagCount]
  · simp [coordinatorPass, if_neg hcond] at h

/-- C3 witness: the theorem applied to a pass blocked on capacity. -/
theorem coordinatorPass_waiting_flag_exclusive_witness :
    waitingFlagCount ⟨false, true, false, false⟩ = 1
    ∨ waitingFlagCount ⟨false, true, false, false⟩ = 0 := by
  have h : coordinatorPass ⟨[⟨"full on", ⟨0, 100⟩, ⟨0, 100⟩⟩]⟩ .contender 0 ⟨100, 100⟩
      none [⟨"cluster-a", true⟩] [⟨"cluster-a", 4, 2, true, true⟩] [] =
      .ok ⟨⟨100, 100⟩, false, false, ⟨none, ⟨false, true, false, false⟩⟩⟩ := rfl
  exact coordinatorPass_waiting_flag_exclusive ⟨[⟨"full on", ⟨0, 100⟩, ⟨0, 100⟩⟩]⟩
    .contender 0 ⟨100, 100⟩ none [⟨"cluster-a", true⟩]
    [⟨"cluster-a", 4, 2, true, true⟩] [] _ h

/-- C4: re-running a pass on the objects it just persisted, with the same
per-cluster reports, returns the identical specs and status and issues no
spec write. -/
theorem coordinatorPass_idempotent (strategy : RolloutStrategy) (role : Role)
    (S : Int) (specs : TargetSpecs) (prevA : Option Nat)
    (inst : List InstallationReport) (cap : List CapacityReport)
    (traf : List TrafficReport) (r : PassResult)
    (h : coordinatorPass strategy role S specs prevA inst cap traf = .ok r) :
    coordinatorPass strategy role S r.specs r.status.achievedStep inst cap traf =
      .ok ⟨r.specs, false, false, r.status⟩ := by
  by_cases hcond : 0 ≤ S ∧ S < (strategy.steps.length : Int)
  · simp only [coordinatorPass, if_pos hcond] at h
    cases hI : InstallationAggregate inst <;> cases hC : CapacityAggregate cap <;>
      cases hT : TrafficAggregate traf <;> simp [hI, hC, hT] at h <;> subst h <;>
      simp [coordinatorPass, if_pos hcond, hI, hC, hT]
  · simp [coordinatorPass, if_neg hcond] at h

/-- C4 witness: the theorem applied to a satisfied single-step pass; the
re-run returns the same result with both write flags false. -/
theorem coordinatorPass_idempotent_witness :
    coordinatorPass ⟨[⟨"full on", ⟨0, 100⟩, ⟨0, 100⟩⟩]⟩ .contender 0 ⟨100, 100⟩ (some 0)
      [⟨"cluster-a", true⟩] [⟨"cluster-a", 4, 4, true, true⟩]
      [⟨"cluster-a", 100, 100, true, true⟩] =
      .ok ⟨⟨100, 100⟩, false, false, ⟨some 0, ⟨false, false, false, true⟩⟩⟩ := by
  have h : coordinatorPass ⟨[⟨"full on", ⟨0, 100⟩, ⟨0, 100⟩⟩]⟩ .contender 0 ⟨0, 0⟩ none
      [⟨"cluster-a", true⟩] [⟨"cluster-a", 4, 4, true, true⟩]
      [⟨"cluster-a", 100, 100, true, true⟩] =
      .ok ⟨⟨100, 100⟩, true, true, ⟨some 0, ⟨false, false, false, true⟩⟩⟩ := rfl
  exact coordinatorPass_idempotent ⟨[⟨"full on", ⟨0, 100⟩, ⟨0, 100⟩⟩]⟩ .contender 0
    ⟨0, 0⟩ none [⟨"cluster-a", true⟩] [⟨"cluster-a", 4, 4, true, true⟩]
    [⟨"cluster-a", 100, 100, true, true⟩] _ h

/-- C7: a pass at a lower target step L runs the unmodified algorithm: its
outcome does not depend on the previously achieved step at all, it writes
step L's desired weights for the role, achieved capacity at or above desired
(including strictly above, the over-provisioned draining case) counts as
satisfied, and with all aggregates satisfied the release parks on
WaitingForCommand with AchievedStep = L. -/
theorem coordinatorPass_backwards (strategy : RolloutStrategy) (role : Role)
    (L : Int) (specs : TargetSpecs) (A A' : Option Nat)
    (inst : List InstallationReport) (cap : List CapacityReport)
    (traf : List TrafficReport)
    (h0 : 0 ≤ L) (h1 : L < (strategy.steps.length : Int))
    (hinst : InstallationAggregate inst = true)
    (hcap : ∀ r ∈ cap, r.desiredReplicas ≤ r.achievedReplicas
      ∧ r.operational = true ∧ r.ready = true)
    (htraf : TrafficAggregate traf = true) :
    ∃ res, coordinatorPass strategy role L specs A inst cap traf = .ok res
      ∧ coordinatorPass strategy role L specs A' inst cap traf = .ok res
      ∧ res.specs = ⟨(strategy.steps.getD L.toNat dummyStep).capacity.forRole role,
          (strategy.steps.getD L.toNat dummyStep).traffic.forRole role⟩
      ∧ res.status.achievedStep = some L.toNat
      ∧ res.status.state = ⟨false, false, false, true⟩ := by
  have hcond : 0 ≤ L ∧ L < (strategy.steps.length : Int) := ⟨h0, h1⟩
  have hC : CapacityAggregate cap = true := (CapacityAggregate_iff cap).2 hcap
  refine ⟨⟨⟨(strategy.steps.getD L.toNat dummyStep).capacity.forRole role,
      (strategy.steps.getD L.toNat dummyStep).traffic.forRole role⟩,
      specs.capacityWeight != (strategy.steps.getD L.toNat dummyStep).capacity.forRole role,
      specs.trafficWeight != (strategy.steps.getD L.toNat dummyStep).traffic.forRole role,
      ⟨some L.toNat, ⟨false, false, false, true⟩⟩⟩, ?_, ?_, rfl, rfl, rfl⟩
  · simp only [coordinatorPass, if_pos hcond]
    simp [hinst, hC, htraf]
  · simp only [coordinatorPass, if_pos hcond]
    simp [hinst, hC, htraf]

/-- C7 witness: with AchievedStep 1 and TargetStep 0 on a two-step strategy,
an over-provisioned cluster (achieved 4 against desired 2) still satisfies
capacity and the pass parks on WaitingForCommand at AchievedStep 0. -/
theorem coordinatorPass_backwards_witness :
    ∃ res, coordinatorPass
        ⟨[⟨"staging", ⟨100, 50⟩, ⟨100, 0⟩⟩, ⟨"full on", ⟨0, 100⟩, ⟨0, 100⟩⟩]⟩
        .contender 0 ⟨50, 0⟩ (some 1) [⟨"cluster-a", true⟩]
        [⟨"cluster-a", 2, 4, true, true⟩] [⟨"cluster-a", 0, 0, true, true⟩] = .ok res
      ∧ coordinatorPass
          ⟨[⟨"staging", ⟨100, 50⟩, ⟨100, 0⟩⟩, ⟨"full on", ⟨0, 100⟩, ⟨0, 100⟩⟩]⟩
          .contender 0 ⟨50, 0⟩ none [⟨"cluster-a", true⟩]
          [⟨"cluster-a", 2, 4, true, true⟩] [⟨"cluster-a", 0, 0, true, true⟩] = .ok res
      ∧ res.status.achievedStep = some 0
      ∧ res.status.state = ⟨false, false, false, true⟩ := by
  obtain ⟨res, ha, hb, _, hd, he⟩ :=
    coordinatorPass_backwards
      ⟨[⟨"staging", ⟨100, 50⟩, ⟨100, 0⟩⟩, ⟨"full on", ⟨0, 100⟩, ⟨0, 100⟩⟩]⟩
      .contender 0 ⟨50, 0⟩ (some 1) none [⟨"cluster-a", true⟩]
      [⟨"cluster-a", 2, 4, true, true⟩] [⟨"cluster-a", 0, 0, true, true⟩]
      (by decide) (by decide) rfl (by decide) rfl
  exact ⟨res, ha, hb, hd, he⟩

/-- C8: a pass whose target step lies outside [0, len(steps)-1] fails with
the terminal `invalidTargetStep` error (the step is not clamped into range),
and a pass whose target step is in range never produces that error. -/
theorem coordinatorPass_invalid_target_step (strategy : RolloutStrategy) (role : Role)
    (S : Int) (specs : TargetSpecs) (prevA : Option Nat)
    (inst : List InstallationReport) (cap : List CapacityReport)
    (traf : List TrafficReport) :
    ((S < 0 ∨ (strategy.steps.length : Int) ≤ S) →
      coordinatorPass strategy role S specs prevA inst cap traf =
        .error .invalidTargetStep)
    ∧ (0 ≤ S → S < (strategy.steps.length : Int) →
      ∃ r, coordinatorPass strategy role S specs prevA inst cap traf = .ok r) := by
  constructor
  · intro hout
    have hcond : ¬ (0 ≤ S ∧ S < (strategy.steps.length : Int)) := by
      rcases hout with h | h
      · exact fun hc => absurd hc.1 (by omega)
      · exact fun hc => absurd hc.2 (by omega)
    simp only [coordinatorPass, if_neg hcond]
  · intro h0 h1
    simp only [coordinatorPass,
      if_pos (⟨h0, h1⟩ : 0 ≤ S ∧ S < (strategy.steps.length : Int))]
    exact ⟨_, rfl⟩

end Shipper
